import Mathlib

/-!
Shallow embedding of the OTP authentication and role-authorization core of
the Apadbandhan backend.

Embedded source files:
* `src/auth/services/otp.service.ts` — `OtpService.formatPhoneNumber`,
  `validatePhoneNumber`, `storeOTP`, `verifyOTP`, `clearOTP`.
* `src/auth/auth.service.ts` — `AuthService.verifyOtp` (login), `signup`,
  `logLogin`, and `RolesGuard.canActivate`.
* `src/auth/schemas/otp.schema.ts` — the `Otp` document shape.

The Mongo collection of OTP documents is modelled as a `List OtpRecord`;
`findOne` is first-match, `deleteOne`/`updateOne` by `_id` act on exactly the
found occurrence (Mongo `_id`s are unique), which the recursive `verifyOTP`
below realises positionally.  Wall-clock time is an `Int` of milliseconds, so
the JS `Date` comparison `new Date() > record.expiresAt` is `expiresAt < now`.
-/

namespace Apadbandhan

/-- `Role` from `roles.decorator.ts`: `'user' | 'admin' | 'superadmin'`. -/
inductive Role where
  | user
  | admin
  | superadmin
deriving DecidableEq

/-- The `roleHierarchy` table in `RolesGuard.canActivate`. -/
def roleHierarchy : Role → Nat
  | Role.superadmin => 3
  | Role.admin => 2
  | Role.user => 1

/-- Outcome of the guard: `canActivate` either returns `true` or throws a
`ForbiddenException` with a message. -/
inductive GuardOutcome where
  | allowed
  | forbidden (message : String)
deriving DecidableEq

/-- `RolesGuard.canActivate` after the request's user has been resolved to a
role.  `requiredRoles` is the reflector metadata: `none` when no `@Roles`
decorator is present (JS `undefined`, which is falsy), `some roles` otherwise
(a JS array, truthy even when empty). -/
def canActivate (requiredRoles : Option (List Role)) (userRole : Role) : GuardOutcome :=
  match requiredRoles with
  | none => GuardOutcome.allowed
  | some roles =>
      if roles.any (fun role => decide (roleHierarchy role ≤ roleHierarchy userRole)) then
        GuardOutcome.allowed
      else
        GuardOutcome.forbidden "Insufficient permissions"

/-- A character removed by the JS `replace(/[\s\-\+]/g, '')` in
`formatPhoneNumber` / `validatePhoneNumber` (whitespace, hyphen, plus). -/
def strippedChar (c : Char) : Bool :=
  c = ' ' || c = '\t' || c = '\n' || c = '\r' || c = '\x0b' || c = '\x0c'
    || c = '-' || c = '+'

/-- The `replace(/[\s\-\+]/g, '')` step shared by both phone helpers. -/
def cleanPhone (l : List Char) : List Char :=
  l.filter (fun c => !(strippedChar c))

/-- `OtpService.formatPhoneNumber`: strip separators, then drop a leading
`"91"` country code when the cleaned number has 12 digits. -/
def formatPhoneNumber (s : String) : String :=
  if (cleanPhone s.toList).take 2 = ['9', '1'] ∧ (cleanPhone s.toList).length = 12 then
    String.mk ((cleanPhone s.toList).drop 2)
  else
    String.mk (cleanPhone s.toList)

/-- First digit of an Indian mobile number: `[6-9]`. -/
def isDigit69 (c : Char) : Bool :=
  c = '6' || c = '7' || c = '8' || c = '9'

/-- The regex alternative `[6-9]\d{9}`: ten digits, first in 6–9. -/
def isIndianMobile10 (l : List Char) : Bool :=
  match l with
  | [] => false
  | c :: rest => isDigit69 c && rest.length == 9 && rest.all Char.isDigit

/-- `OtpService.validatePhoneNumber`: the cleaned number matches
`^([6-9]\d{9}|91[6-9]\d{9})$`. -/
def validatePhoneNumber (s : String) : Bool :=
  let clean := cleanPhone s.toList
  isIndianMobile10 clean ||
    (match clean with
     | '9' :: '1' :: rest => isIndianMobile10 rest
     | _ => false)

/-- An `otps` document (`otp.schema.ts`); `verified` is the consumption flag. -/
structure OtpRecord where
  phone : String
  otp : String
  expiresAt : Int
  verified : Bool
  attempts : Nat
deriving DecidableEq

/-- Result shape of `OtpService.verifyOTP`. -/
structure VerifyResult where
  isValid : Bool
  message : String
deriving DecidableEq

def otpNotFoundMsg : String := "OTP not found. Please request a new one."
def otpExpiredMsg : String := "OTP has expired. Please request a new one."
def otpIncorrectMsg : String := "Invalid OTP"
def otpAlreadyUsedMsg : String := "OTP already used. Please request a new one."
def otpVerifiedMsg : String := "OTP verified successfully"

/-- `OtpService.verifyOTP`.  `findOne({phone})` is the first record whose
phone matches; expiry deletes exactly that record (`deleteOne` by `_id`);
a correct, unconsumed code updates exactly that record (`updateOne` by
`_id`).  Returns the result together with the collection afterwards. -/
def verifyOTP : List OtpRecord → Int → String → String → VerifyResult × List OtpRecord
  | [], _, _, _ => (⟨false, otpNotFoundMsg⟩, [])
  | record :: rest, now, phone, otp =>
    if record.phone = phone then
      if record.expiresAt < now then
        (⟨false, otpExpiredMsg⟩, rest)
      else if record.otp ≠ otp then
        (⟨false, otpIncorrectMsg⟩, record :: rest)
      else if record.verified then
        (⟨false, otpAlreadyUsedMsg⟩, record :: rest)
      else
        (⟨true, otpVerifiedMsg⟩, { record with verified := true } :: rest)
    else
      ((verifyOTP rest now phone otp).1, record :: (verifyOTP rest now phone otp).2)

/-- `OtpService.storeOTP`: `deleteMany({phone})`, then `create` a fresh
unconsumed record expiring `expiryMinutes` minutes from `now`. -/
def storeOTP (db : List OtpRecord) (now expiryMinutes : Int) (phone otp : String) :
    List OtpRecord :=
  db.filter (fun r => r.phone != phone) ++
    [{ phone := phone, otp := otp, expiresAt := now + expiryMinutes * 60 * 1000,
       verified := false, attempts := 0 }]

/-- `OtpService.clearOTP`: `deleteMany({phone})`. -/
def clearOTP (db : List OtpRecord) (phone : String) : List OtpRecord :=
  db.filter (fun r => r.phone != phone)

/-- An identity as returned by the users collaborator (`findByPhone`).
`role` is `Option` because the Mongo document's `role` may be absent, which
the service code papers over with `user.role || 'user'`. -/
structure User where
  id : String
  phone : String
  fullName : String
  email : String
  role : Option Role
deriving DecidableEq

/-- The JWT claim set signed by `AuthService`: `{ userId, phone, role }` with
`role = user.role || 'user'`. -/
structure TokenPayload where
  userId : String
  phone : String
  role : Role
deriving DecidableEq

/-- HTTP-level error outcomes of the auth flow.  `unauthorized` is NestJS
`UnauthorizedException` (401), `badRequest` is `BadRequestException` (400),
`conflict` is `ConflictException` (409, available in NestJS and what the spec
calls `Conflict`), `internalError` stands for any other uncaught throw. -/
inductive AuthError where
  | unauthorized (message : String)
  | badRequest (message : String)
  | conflict (message : String)
  | internalError (message : String)
deriving DecidableEq

/-- Modelled from the spec: whether an auth outcome is the `Conflict` status
that §7 of the spec assigns to `IdentityAlreadyExists`. -/
def isConflictError : Except AuthError TokenPayload → Bool
  | Except.error (AuthError.conflict _) => true
  | _ => false

/-- The three login-log collections of `login-log.schema.ts`. -/
inductive LogCollection where
  | superadminLog
  | adminLog
  | userLog
deriving DecidableEq

/-- The `switch (user.role)` in `AuthService.logLogin`: which collection the
login is recorded in (`default` covers `'user'` and any missing role). -/
def logCollectionFor (role : Option Role) : LogCollection :=
  match role with
  | some Role.superadmin => LogCollection.superadminLog
  | some Role.admin => LogCollection.adminLog
  | _ => LogCollection.userLog

/-- `AuthService.logLogin`: the audit write is wrapped in `try/catch`; a
failing `create` (`Except.error`) is logged and swallowed, so `logLogin`
itself always resolves.  `createOutcome` is the collaborator store's result
for the write attempt. -/
def logLogin (createOutcome : Except String Unit) : Except String Unit :=
  match createOutcome with
  | Except.error _ => Except.ok ()
  | Except.ok _ => Except.ok ()

/-- Modelled from the spec: `UsersService.updateLastLogin` — the users service
that `AuthService` imports (`src/users/users.service.ts`) is not under `src/`,
only its callers and schemas are.  Per the spec, the `lastLoginAt` /
`lastLoginIp` update is best-effort: any persistence failure is caught
internally and never rethrown to the login path. -/
def updateLastLogin (writeOutcome : Except String Unit) : Except String Unit :=
  match writeOutcome with
  | Except.error _ => Except.ok ()
  | Except.ok _ => Except.ok ()

/-- `AuthService.verifyOtp` (the login flow).  `users` is the collaborator
`usersService.findByPhone`; `auditWrite` / `lastLoginWrite` are the outcomes
the persistence store would report for the login-log and last-login writes.
Returns the HTTP outcome (token payload or thrown exception) together with
the OTP collection afterwards — exceptions abort the flow but mutations
already made to the collection persist. -/
def authVerifyOtp (db : List OtpRecord) (now : Int) (users : String → Option User)
    (auditWrite lastLoginWrite : Except String Unit) (rawPhone otp : String) :
    Except AuthError TokenPayload × List OtpRecord :=
  if (verifyOTP db now (formatPhoneNumber rawPhone) otp).1.isValid then
    match users (formatPhoneNumber rawPhone) with
    | none =>
        (Except.error (AuthError.unauthorized "User not found. Please sign up first."),
         (verifyOTP db now (formatPhoneNumber rawPhone) otp).2)
    | some user =>
        match logLogin auditWrite with
        | Except.error e =>
            (Except.error (AuthError.internalError e),
             clearOTP (verifyOTP db now (formatPhoneNumber rawPhone) otp).2
               (formatPhoneNumber rawPhone))
        | Except.ok _ =>
            match updateLastLogin lastLoginWrite with
            | Except.error e =>
                (Except.error (AuthError.internalError e),
                 clearOTP (verifyOTP db now (formatPhoneNumber rawPhone) otp).2
                   (formatPhoneNumber rawPhone))
            | Except.ok _ =>
                (Except.ok
                  { userId := user.id, phone := user.phone,
                    role := user.role.getD Role.user },
                 clearOTP (verifyOTP db now (formatPhoneNumber rawPhone) otp).2
                   (formatPhoneNumber rawPhone))
  else
    (Except.error (AuthError.unauthorized
       (verifyOTP db now (formatPhoneNumber rawPhone) otp).1.message),
     (verifyOTP db now (formatPhoneNumber rawPhone) otp).2)

/-- `AuthService.signup`.  The existence check (`findByPhone`) runs only after
OTP verification; an existing identity raises `BadRequestException`.  The
created identity's role defaults to `'user'` (schema default), so the signed
payload carries `Role.user`. -/
def signup (db : List OtpRecord) (now : Int) (users : String → Option User)
    (rawPhone otp fullName email newUserId : String) :
    Except AuthError TokenPayload × List OtpRecord :=
  if (verifyOTP db now (formatPhoneNumber rawPhone) otp).1.isValid then
    match users (formatPhoneNumber rawPhone) with
    | some _ =>
        (Except.error (AuthError.badRequest
           "User with this phone number already exists. Please login instead."),
         (verifyOTP db now (formatPhoneNumber rawPhone) otp).2)
    | none =>
        (Except.ok
          { userId := newUserId, phone := formatPhoneNumber rawPhone,
            role := Role.user },
         clearOTP (verifyOTP db now (formatPhoneNumber rawPhone) otp).2
           (formatPhoneNumber rawPhone))
  else
    (Except.error (AuthError.unauthorized
       (verifyOTP db now (formatPhoneNumber rawPhone) otp).1.message),
     (verifyOTP db now (formatPhoneNumber rawPhone) otp).2)

/-! ### Helper lemmas -/

/-- Records ahead of the matching one are passed over untouched by
`verifyOTP` (`findOne` returns the first match). -/
theorem verifyOTP_append (l₁ db : List OtpRecord) (now : Int) (phone otp : String)
    (hbefore : ∀ x ∈ l₁, x.phone ≠ phone) :
    verifyOTP (l₁ ++ db) now phone otp =
      ((verifyOTP db now phone otp).1, l₁ ++ (verifyOTP db now phone otp).2) := by
  induction l₁ with
  | nil => simp
  | cons x xs ih =>
      have hx : x.phone ≠ phone := hbefore x (List.mem_cons_self x xs)
      have hxs : ∀ y ∈ xs, y.phone ≠ phone := fun y hy => hbefore y (List.mem_cons_of_mem x hy)
      simp only [List.cons_append, verifyOTP, if_neg hx, List.append_eq, ih hxs]

/-- `verifyOTP` on a collection whose first record for `phone` is `r`,
written as one case split over the source's four guards. -/
theorem verifyOTP_found (l₁ l₂ : List OtpRecord) (r : OtpRecord) (now : Int)
    (phone otp : String) (hbefore : ∀ x ∈ l₁, x.phone ≠ phone) (hr : r.phone = phone) :
    verifyOTP (l₁ ++ r :: l₂) now phone otp =
      (if r.expiresAt < now then (⟨false, otpExpiredMsg⟩, l₁ ++ l₂)
       else if r.otp ≠ otp then (⟨false, otpIncorrectMsg⟩, l₁ ++ r :: l₂)
       else if r.verified then (⟨false, otpAlreadyUsedMsg⟩, l₁ ++ r :: l₂)
       else (⟨true, otpVerifiedMsg⟩, l₁ ++ { r with verified := true } :: l₂)) := by
  rw [verifyOTP_append l₁ (r :: l₂) now phone otp hbefore]
  by_cases h1 : r.expiresAt < now
  · simp [verifyOTP, hr, h1]
  · by_cases h2 : r.otp ≠ otp
    · simp [verifyOTP, hr, h1, h2]
    · by_cases h3 : r.verified
      · simp [verifyOTP, hr, h1, h2, h3]
      · simp [verifyOTP, hr, h1, h2, h3]

/-- A digit survives the `replace(/[\s\-\+]/g, '')` strip. -/
theorem strippedChar_eq_false_of_isDigit (c : Char) (h : c.isDigit = true) :
    strippedChar c = false := by
  by_contra hc
  rw [Bool.not_eq_false, strippedChar] at hc
  simp only [Bool.or_eq_true, decide_eq_true_eq] at hc
  rcases hc with ((((((h1 | h1) | h1) | h1) | h1) | h1) | h1) | h1 <;> subst h1 <;>
    exact absurd h (by decide)

/-- Cleaning a string of digits changes nothing. -/
theorem cleanPhone_eq_self_of_digits (l : List Char) (h : ∀ c ∈ l, c.isDigit = true) :
    cleanPhone l = l := by
  unfold cleanPhone
  rw [List.filter_eq_self]
  intro a ha
  rw [strippedChar_eq_false_of_isDigit a (h a ha)]
  rfl

/-- A `[6-9]\d{9}` match consists of ten digits. -/
theorem isIndianMobile10_digits (l : List Char) (h : isIndianMobile10 l = true) :
    (∀ c ∈ l, c.isDigit = true) ∧ l.length = 10 := by
  match l with
  | [] => exact absurd h (by decide)
  | c :: rest =>
      unfold isIndianMobile10 at h
      simp only [Bool.and_eq_true, beq_iff_eq] at h
      obtain ⟨⟨hc, hlen⟩, hall⟩ := h
      refine ⟨?_, by simp [hlen]⟩
      intro ch hch
      rcases List.mem_cons.mp hch with h1 | h1
      · subst h1
        revert hc
        unfold isDigit69
        simp only [Bool.or_eq_true, decide_eq_true_eq]
        rintro (((h2 | h2) | h2) | h2) <;> subst h2 <;> decide
      · exact List.all_eq_true.mp hall ch h1

/-- Rebuilding a string from its characters is the identity. -/
theorem string_mk_toList (p : String) : String.mk p.toList = p := rfl

/-- On an already-normalized valid phone, `formatPhoneNumber` is the
identity: nothing is stripped and the 12-digit prefix rule cannot fire. -/
theorem formatPhoneNumber_valid_eq_self (p : String)
    (h : isIndianMobile10 p.toList = true) : formatPhoneNumber p = p := by
  obtain ⟨hdig, hlen⟩ := isIndianMobile10_digits p.toList h
  have hclean : cleanPhone p.toList = p.toList := cleanPhone_eq_self_of_digits _ hdig
  unfold formatPhoneNumber
  rw [hclean, if_neg]
  · exact string_mk_toList p
  · rintro ⟨-, h12⟩
    rw [hlen] at h12
    exact absurd h12 (by decide)

/-! ### Claims -/

/-- C3: for every non-empty required-role list and actual role, the guard
allows iff the actual role's rank is at least the minimum rank over the
required roles; in particular requiring `admin` admits `superadmin` and
rejects `user` with "Insufficient permissions". -/
theorem rolesGuard_grants_iff_min_rank (roles : List Role) (userRole : Role) (m : ℕ)
    (hmin : (roles.map roleHierarchy).minimum = WithBot.some m) :
    (canActivate (some roles) userRole = GuardOutcome.allowed ↔
      m ≤ roleHierarchy userRole) ∧
    canActivate (some [Role.admin]) Role.superadmin = GuardOutcome.allowed ∧
    canActivate (some [Role.admin]) Role.user =
      GuardOutcome.forbidden "Insufficient permissions" := by
  refine ⟨?_, rfl, rfl⟩
  obtain ⟨hmem, hle⟩ := List.minimum_eq_coe_iff.mp hmin
  have hiff : canActivate (some roles) userRole = GuardOutcome.allowed ↔
      roles.any (fun role => decide (roleHierarchy role ≤ roleHierarchy userRole)) = true := by
    unfold canActivate
    by_cases h : roles.any (fun role => decide (roleHierarchy role ≤ roleHierarchy userRole)) = true
    · simp [h]
    · simp [h]
  rw [hiff, List.any_eq_true]
  constructor
  · rintro ⟨r, hr, hdec⟩
    exact le_trans (hle (roleHierarchy r) (List.mem_map_of_mem roleHierarchy hr))
      (of_decide_eq_true hdec)
  · intro hm
    obtain ⟨r, hr, hrm⟩ := List.mem_map.mp hmem
    exact ⟨r, hr, decide_eq_true (hrm ▸ hm)⟩

/-- Witness for C3 at `roles = [admin]`, `userRole = superadmin`, `m = 2`. -/
theorem rolesGuard_grants_iff_min_rank_witness :
    (canActivate (some [Role.admin]) Role.superadmin = GuardOutcome.allowed ↔
      2 ≤ roleHierarchy Role.superadmin) ∧
    canActivate (some [Role.admin]) Role.superadmin = GuardOutcome.allowed ∧
    canActivate (some [Role.admin]) Role.user =
      GuardOutcome.forbidden "Insufficient permissions" :=
  rolesGuard_grants_iff_min_rank [Role.admin] Role.superadmin 2 (by decide)

/-- C4 counterexample: with an explicitly declared empty role list the guard
does not allow — `requiredRoles = []` is truthy in JS, so the guard reaches
`[].some(...) = false` and throws "Insufficient permissions". -/
theorem rolesGuard_empty_roles_denies :
    canActivate (some ([] : List Role)) Role.user =
      GuardOutcome.forbidden "Insufficient permissions" ∧
    canActivate (some ([] : List Role)) Role.user ≠ GuardOutcome.allowed :=
  ⟨rfl, by decide⟩

/-- C4 (amended): only an absent role declaration (`undefined` metadata, no
`@Roles` decorator) is default-open for every authenticated role; an
explicitly declared empty role list denies with "Insufficient permissions". -/
theorem rolesGuard_default_open (role : Role) :
    canActivate none role = GuardOutcome.allowed ∧
    canActivate (some []) role = GuardOutcome.forbidden "Insufficient permissions" :=
  ⟨rfl, rfl⟩

/-- C10: on every valid 10-digit phone starting with 6–9,
`formatPhoneNumber` is idempotent. -/
theorem formatPhoneNumber_idempotent (p : String)
    (h : isIndianMobile10 p.toList = true) :
    formatPhoneNumber (formatPhoneNumber p) = formatPhoneNumber p := by
  rw [formatPhoneNumber_valid_eq_self p h]
  exact formatPhoneNumber_valid_eq_self p h

/-- Witness for C10 at the spec's example phone `9876543210`. -/
theorem formatPhoneNumber_idempotent_witness :
    isIndianMobile10 ("9876543210").toList = true ∧
    formatPhoneNumber (formatPhoneNumber "9876543210") = formatPhoneNumber "9876543210" :=
  ⟨by decide, formatPhoneNumber_idempotent "9876543210" (by decide)⟩

/-- C1: single use.  For a stored, unexpired, unconsumed record whose code
matches, the first `verify` returns valid and flips `verified`; every later
`verify` with the same code (still unexpired, record not cleared) returns
invalid with the already-used message and leaves the collection unchanged,
so the property propagates to all subsequent calls. -/
theorem otp_single_use (l₁ l₂ : List OtpRecord) (r : OtpRecord) (phone code : String)
    (now now' : Int)
    (hbefore : ∀ x ∈ l₁, x.phone ≠ phone) (hr : r.phone = phone)
    (hexp : ¬ r.expiresAt < now) (hcode : r.otp = code) (hfresh : r.verified = false)
    (hexp' : ¬ r.expiresAt < now') :
    verifyOTP (l₁ ++ r :: l₂) now phone code =
      (⟨true, otpVerifiedMsg⟩, l₁ ++ { r with verified := true } :: l₂) ∧
    verifyOTP (l₁ ++ { r with verified := true } :: l₂) now' phone code =
      (⟨false, otpAlreadyUsedMsg⟩, l₁ ++ { r with verified := true } :: l₂) := by
  constructor
  · rw [verifyOTP_found l₁ l₂ r now phone code hbefore hr]
    simp [hexp, hcode, hfresh]
  · rw [verifyOTP_found l₁ l₂ { r with verified := true } now' phone code hbefore hr]
    simp [hexp', hcode]

/-- Witness for C1: fresh record for `9876543210`, code `123456`, expiry 1000,
verified at times 500 then 600. -/
theorem otp_single_use_witness :
    verifyOTP [⟨"9876543210", "123456", 1000, false, 0⟩] 500 "9876543210" "123456" =
      (⟨true, otpVerifiedMsg⟩, [⟨"9876543210", "123456", 1000, true, 0⟩]) ∧
    verifyOTP [⟨"9876543210", "123456", 1000, true, 0⟩] 600 "9876543210" "123456" =
      (⟨false, otpAlreadyUsedMsg⟩, [⟨"9876543210", "123456", 1000, true, 0⟩]) :=
  otp_single_use [] [] ⟨"9876543210", "123456", 1000, false, 0⟩ "9876543210" "123456"
    500 600 (by simp) rfl (by decide) rfl rfl (by decide)

/-- C2 counterexample: at `now = expiresAt` exactly, the record is NOT
treated as expired — the source tests `new Date() > record.expiresAt`
strictly, so a matching code still verifies at the boundary instant. -/
theorem otp_expiry_boundary_counterexample :
    (verifyOTP [⟨"9876543210", "123456", 1000, false, 0⟩] 1000 "9876543210" "123456").1 =
      ⟨true, otpVerifiedMsg⟩ ∧
    (verifyOTP [⟨"9876543210", "123456", 1000, false, 0⟩] 1000 "9876543210" "123456").1.message ≠
      otpExpiredMsg := by
  exact ⟨rfl, by decide⟩

/-- C2 (amended): strictly after `expiresAt`, `verify` deletes the record and
returns invalid with the expired message, regardless of the submitted code;
at exactly `expiresAt` the record is still treated as live. -/
theorem otp_expired_strict (l₁ l₂ : List OtpRecord) (r : OtpRecord) (phone code : String)
    (now : Int)
    (hbefore : ∀ x ∈ l₁, x.phone ≠ phone) (hr : r.phone = phone)
    (hexp : r.expiresAt < now) :
    verifyOTP (l₁ ++ r :: l₂) now phone code = (⟨false, otpExpiredMsg⟩, l₁ ++ l₂) := by
  rw [verifyOTP_found l₁ l₂ r now phone code hbefore hr]
  simp [hexp]

/-- Witness for C2 (amended): expired record, wrong code submitted — still
deleted and reported expired. -/
theorem otp_expired_strict_witness :
    verifyOTP [⟨"9876543210", "123456", 1000, false, 0⟩] 2000 "9876543210" "999999" =
      (⟨false, otpExpiredMsg⟩, []) :=
  otp_expired_strict [] [] ⟨"9876543210", "123456", 1000, false, 0⟩ "9876543210" "999999"
    2000 (by simp) rfl (by decide)

/-- C8: a wrong code against an unexpired record answers invalid with the
incorrect-code message and leaves the whole collection — the record, its
`verified` flag and every other field — unchanged; hence (when the record is
unconsumed) a retry with the correct code still succeeds. -/
theorem otp_incorrect_frame (l₁ l₂ : List OtpRecord) (r : OtpRecord) (phone code : String)
    (now : Int)
    (hbefore : ∀ x ∈ l₁, x.phone ≠ phone) (hr : r.phone = phone)
    (hexp : ¬ r.expiresAt < now) (hcode : r.otp ≠ code) :
    verifyOTP (l₁ ++ r :: l₂) now phone code =
      (⟨false, otpIncorrectMsg⟩, l₁ ++ r :: l₂) ∧
    (r.verified = false →
      verifyOTP (l₁ ++ r :: l₂) now phone r.otp =
        (⟨true, otpVerifiedMsg⟩, l₁ ++ { r with verified := true } :: l₂)) := by
  constructor
  · rw [verifyOTP_found l₁ l₂ r now phone code hbefore hr]
    simp [hexp, hcode]
  · intro hfresh
    rw [verifyOTP_found l₁ l₂ r now phone r.otp hbefore hr]
    simp [hexp, hfresh]

/-- Witness for C8: wrong code `999999` leaves the record intact; the correct
code then verifies. -/
theorem otp_incorrect_frame_witness :
    verifyOTP [⟨"9876543210", "123456", 1000, false, 0⟩] 500 "9876543210" "999999" =
      (⟨false, otpIncorrectMsg⟩, [⟨"9876543210", "123456", 1000, false, 0⟩]) ∧
    ((⟨"9876543210", "123456", 1000, false, 0⟩ : OtpRecord).verified = false →
      verifyOTP [⟨"9876543210", "123456", 1000, false, 0⟩] 500 "9876543210" "123456" =
        (⟨true, otpVerifiedMsg⟩, [⟨"9876543210", "123456", 1000, true, 0⟩])) :=
  otp_incorrect_frame [] [] ⟨"9876543210", "123456", 1000, false, 0⟩ "9876543210" "999999"
    500 (by simp) rfl (by decide) (by decide)

/-- C5: issuing a new code deletes every prior record for the phone and
appends exactly one fresh unconsumed record, so the collection afterwards
holds exactly one record for that phone — the new one — and a previously
issued (hence different) code no longer verifies at any later time. -/
theorem storeOTP_single_active (db : List OtpRecord) (now expiryMinutes now' : Int)
    (phone otp oldCode : String) (hne : oldCode ≠ otp) :
    (storeOTP db now expiryMinutes phone otp).filter (fun r => r.phone == phone) =
      [{ phone := phone, otp := otp, expiresAt := now + expiryMinutes * 60 * 1000,
         verified := false, attempts := 0 }] ∧
    (verifyOTP (storeOTP db now expiryMinutes phone otp) now' phone oldCode).1.isValid
      = false := by
  have hbefore : ∀ x ∈ db.filter (fun r => r.phone != phone), x.phone ≠ phone := by
    intro x hx
    simpa using (List.mem_filter.mp hx).2
  constructor
  · unfold storeOTP
    rw [List.filter_append]
    have h1 : (db.filter (fun r => r.phone != phone)).filter
        (fun r => r.phone == phone) = [] := by
      rw [List.filter_eq_nil]
      intro a ha
      simpa using hbefore a ha
    rw [h1]
    simp
  · unfold storeOTP
    rw [verifyOTP_found (db.filter (fun r => r.phone != phone)) []
      { phone := phone, otp := otp, expiresAt := now + expiryMinutes * 60 * 1000,
        verified := false, attempts := 0 } now' phone oldCode hbefore rfl]
    by_cases hexp : (now + expiryMinutes * 60 * 1000 : Int) < now'
    · simp [hexp]
    · have hotp : otp ≠ oldCode := Ne.symm hne
      simp [hexp, hotp]

/-- Witness for C5: a second send for `9876543210` replaces the old record
(code `111111`) with the new one (code `123456`), and the old code fails. -/
theorem storeOTP_single_active_witness :
    (storeOTP [⟨"9876543210", "111111", 900, false, 0⟩] 0 5 "9876543210" "123456").filter
        (fun r => r.phone == "9876543210") =
      [⟨"9876543210", "123456", 300000, false, 0⟩] ∧
    (verifyOTP (storeOTP [⟨"9876543210", "111111", 900, false, 0⟩] 0 5 "9876543210" "123456")
        100 "9876543210" "111111").1.isValid = false :=
  storeOTP_single_active [⟨"9876543210", "111111", 900, false, 0⟩] 0 5 100
    "9876543210" "123456" "111111" (by decide)

/-- C6: when OTP verification succeeds and the identity exists, the login's
outcome is the signed payload and the cleared OTP collection, for EVERY
outcome of the login-audit write and of the last-login update — those
side-effect failures are swallowed (`logLogin`'s `try/catch`; the last-login
update per the spec-modelled `updateLastLogin`) and the run coincides with
the run in which both writes succeed. -/
theorem login_best_effort_side_effects (l₁ l₂ : List OtpRecord) (r : OtpRecord) (u : User)
    (rawPhone code : String) (now : Int) (users : String → Option User)
    (auditWrite lastLoginWrite : Except String Unit)
    (hbefore : ∀ x ∈ l₁, x.phone ≠ formatPhoneNumber rawPhone)
    (hr : r.phone = formatPhoneNumber rawPhone)
    (hexp : ¬ r.expiresAt < now) (hcode : r.otp = code) (hfresh : r.verified = false)
    (husers : users (formatPhoneNumber rawPhone) = some u) :
    authVerifyOtp (l₁ ++ r :: l₂) now users auditWrite lastLoginWrite rawPhone code =
      (Except.ok { userId := u.id, phone := u.phone, role := u.role.getD Role.user },
       clearOTP (l₁ ++ { r with verified := true } :: l₂) (formatPhoneNumber rawPhone)) ∧
    authVerifyOtp (l₁ ++ r :: l₂) now users auditWrite lastLoginWrite rawPhone code =
      authVerifyOtp (l₁ ++ r :: l₂) now users (Except.ok ()) (Except.ok ())
        rawPhone code := by
  have hv := verifyOTP_found l₁ l₂ r now (formatPhoneNumber rawPhone) code hbefore hr
  rw [if_neg hexp, if_neg (not_not_intro hcode), if_neg (by simp [hfresh])] at hv
  have hmain : ∀ aw lw : Except String Unit,
      authVerifyOtp (l₁ ++ r :: l₂) now users aw lw rawPhone code =
        (Except.ok { userId := u.id, phone := u.phone, role := u.role.getD Role.user },
         clearOTP (l₁ ++ { r with verified := true } :: l₂)
           (formatPhoneNumber rawPhone)) := by
    intro aw lw
    unfold authVerifyOtp
    rw [hv]
    cases aw <;> cases lw <;> simp [husers, logLogin, updateLastLogin]
  exact ⟨hmain auditWrite lastLoginWrite,
    (hmain auditWrite lastLoginWrite).trans (hmain (Except.ok ()) (Except.ok ())).symm⟩

/-- Witness for C6: both the audit write and the last-login update fail, yet
the login returns the token payload and the cleared collection. -/
theorem login_best_effort_side_effects_witness :
    authVerifyOtp [⟨"9876543210", "123456", 1000, false, 0⟩] 500
        (fun _ => some ⟨"u1", "9876543210", "Test User", "t@example.com", some Role.user⟩)
        (Except.error "audit store down") (Except.error "user store down")
        "9876543210" "123456" =
      (Except.ok ⟨"u1", "9876543210", Role.user⟩, []) ∧
    authVerifyOtp [⟨"9876543210", "123456", 1000, false, 0⟩] 500
        (fun _ => some ⟨"u1", "9876543210", "Test User", "t@example.com", some Role.user⟩)
        (Except.error "audit store down") (Except.error "user store down")
        "9876543210" "123456" =
      authVerifyOtp [⟨"9876543210", "123456", 1000, false, 0⟩] 500
        (fun _ => some ⟨"u1", "9876543210", "Test User", "t@example.com", some Role.user⟩)
        (Except.ok ()) (Except.ok ()) "9876543210" "123456" :=
  login_best_effort_side_effects [] [] ⟨"9876543210", "123456", 1000, false, 0⟩
    ⟨"u1", "9876543210", "Test User", "t@example.com", some Role.user⟩
    "9876543210" "123456" 500
    (fun _ => some ⟨"u1", "9876543210", "Test User", "t@example.com", some Role.user⟩)
    (Except.error "audit store down") (Except.error "user store down")
    (by simp) (by decide) (by decide) rfl rfl rfl

/-- C7 counterexample: with a correct, unexpired OTP and an already
registered phone, `signup` fails with `BadRequestException` (HTTP 400), not
with a `Conflict` (409) error as the claim states. -/
theorem signup_conflict_counterexample :
    (signup [⟨"9876543210", "123456", 1000, false, 0⟩] 500
        (fun _ => some ⟨"u1", "9876543210", "Test User", "t@example.com", some Role.user⟩)
        "9876543210" "123456" "New Name" "n@example.com" "u2").1 =
      Except.error (AuthError.badRequest
        "User with this phone number already exists. Please login instead.") ∧
    isConflictError ((signup [⟨"9876543210", "123456", 1000, false, 0⟩] 500
        (fun _ => some ⟨"u1", "9876543210", "Test User", "t@example.com", some Role.user⟩)
        "9876543210" "123456" "New Name" "n@example.com" "u2").1) = false := by
  exact ⟨rfl, rfl⟩

/-- C7 (amended): when the submitted OTP verifies and an identity already
exists for the normalized phone, `signup` fails with
`BadRequest("User with this phone number already exists…")` (HTTP 400, the
spec's `IdentityAlreadyExists` case, though not a 409 `Conflict`); the
existence check runs only after OTP verification, so whenever verification
fails, `signup` fails `Unauthorized` with the verifier's message, for every
identity-lookup function alike. -/
theorem signup_existence_checked_after_otp (l₁ l₂ : List OtpRecord) (r : OtpRecord)
    (u : User) (rawPhone code fullName email newUserId : String) (now : Int)
    (users : String → Option User)
    (hbefore : ∀ x ∈ l₁, x.phone ≠ formatPhoneNumber rawPhone)
    (hr : r.phone = formatPhoneNumber rawPhone)
    (hexp : ¬ r.expiresAt < now) (hcode : r.otp = code) (hfresh : r.verified = false)
    (husers : users (formatPhoneNumber rawPhone) = some u) :
    (signup (l₁ ++ r :: l₂) now users rawPhone code fullName email newUserId).1 =
      Except.error (AuthError.badRequest
        "User with this phone number already exists. Please login instead.") ∧
    ∀ (db : List OtpRecord) (now₂ : Int) (usersB : String → Option User)
      (rawB cB nB eB iB : String),
      (verifyOTP db now₂ (formatPhoneNumber rawB) cB).1.isValid = false →
      signup db now₂ usersB rawB cB nB eB iB =
        (Except.error (AuthError.unauthorized
           (verifyOTP db now₂ (formatPhoneNumber rawB) cB).1.message),
         (verifyOTP db now₂ (formatPhoneNumber rawB) cB).2) := by
  constructor
  · have hv := verifyOTP_found l₁ l₂ r now (formatPhoneNumber rawPhone) code hbefore hr
    rw [if_neg hexp, if_neg (not_not_intro hcode), if_neg (by simp [hfresh])] at hv
    unfold signup
    rw [hv]
    simp [husers]
  · intro db now₂ usersB rawB cB nB eB iB hinv
    unfold signup
    rw [hinv]
    simp

/-- Witness for C7 (amended): concrete registered phone with valid OTP. -/
theorem signup_existence_checked_after_otp_witness :
    (signup [⟨"9876543210", "123456", 1000, false, 0⟩] 500
        (fun _ => some ⟨"u1", "9876543210", "Test User", "t@example.com", some Role.user⟩)
        "9876543210" "123456" "New Name" "n@example.com" "u2").1 =
      Except.error (AuthError.badRequest
        "User with this phone number already exists. Please login instead.") :=
  (signup_existence_checked_after_otp [] [] ⟨"9876543210", "123456", 1000, false, 0⟩
    ⟨"u1", "9876543210", "Test User", "t@example.com", some Role.user⟩
    "9876543210" "123456" "New Name" "n@example.com" "u2" 500
    (fun _ => some ⟨"u1", "9876543210", "Test User", "t@example.com", some Role.user⟩)
    (by simp) (by decide) (by decide) rfl rfl rfl).1

/-- C9 counterexample: after the login that fails with "user not found" has
marked the record consumed, a subsequent `verify` with a DIFFERENT code
answers with the incorrect-code message, not the already-used message the
claim asserts for every code. -/
theorem login_notfound_wrong_code_counterexample :
    (authVerifyOtp [⟨"9876543210", "123456", 1000, false, 0⟩] 500 (fun _ => none)
        (Except.ok ()) (Except.ok ()) "9876543210" "123456").2 =
      [⟨"9876543210", "123456", 1000, true, 0⟩] ∧
    (verifyOTP [⟨"9876543210", "123456", 1000, true, 0⟩] 600 "9876543210" "654321").1 =
      ⟨false, otpIncorrectMsg⟩ ∧
    (verifyOTP [⟨"9876543210", "123456", 1000, true, 0⟩] 600 "9876543210" "654321").1.message
      ≠ otpAlreadyUsedMsg := by
  exact ⟨rfl, rfl, by decide⟩

/-- C9 (amended): when OTP verification succeeds but no identity exists, the
login throws Unauthorized("User not found…") and leaves the record present
but marked consumed; until expiry or replacement, a subsequent `verify` with
the SAME code fails with the already-used message, and one with any other
code fails with the incorrect-code message — either way invalid, so the
consumed OTP cannot be used to sign up. -/
theorem login_user_not_found_consumes_otp (l₁ l₂ : List OtpRecord) (r : OtpRecord)
    (rawPhone code : String) (now now' : Int) (users : String → Option User)
    (auditWrite lastLoginWrite : Except String Unit)
    (hbefore : ∀ x ∈ l₁, x.phone ≠ formatPhoneNumber rawPhone)
    (hr : r.phone = formatPhoneNumber rawPhone)
    (hexp : ¬ r.expiresAt < now) (hcode : r.otp = code) (hfresh : r.verified = false)
    (husers : users (formatPhoneNumber rawPhone) = none)
    (hexp' : ¬ r.expiresAt < now') :
    authVerifyOtp (l₁ ++ r :: l₂) now users auditWrite lastLoginWrite rawPhone code =
      (Except.error (AuthError.unauthorized "User not found. Please sign up first."),
       l₁ ++ { r with verified := true } :: l₂) ∧
    verifyOTP (l₁ ++ { r with verified := true } :: l₂) now'
        (formatPhoneNumber rawPhone) code =
      (⟨false, otpAlreadyUsedMsg⟩, l₁ ++ { r with verified := true } :: l₂) ∧
    ∀ c', c' ≠ code →
      verifyOTP (l₁ ++ { r with verified := true } :: l₂) now'
          (formatPhoneNumber rawPhone) c' =
        (⟨false, otpIncorrectMsg⟩, l₁ ++ { r with verified := true } :: l₂) := by
  have hv := verifyOTP_found l₁ l₂ r now (formatPhoneNumber rawPhone) code hbefore hr
  rw [if_neg hexp, if_neg (not_not_intro hcode), if_neg (by simp [hfresh])] at hv
  refine ⟨?_, ?_, ?_⟩
  · unfold authVerifyOtp
    rw [hv]
    simp [husers]
  · rw [verifyOTP_found l₁ l₂ { r with verified := true } now'
      (formatPhoneNumber rawPhone) code hbefore hr]
    simp [hexp', hcode]
  · intro c' hc'
    rw [verifyOTP_found l₁ l₂ { r with verified := true } now'
      (formatPhoneNumber rawPhone) c' hbefore hr]
    have hotp : r.otp ≠ c' := by
      rw [hcode]
      exact fun h => hc' h.symm
    simp [hexp', hotp]

/-- Witness for C9 (amended): the concrete failed login and both follow-up
verifies. -/
theorem login_user_not_found_consumes_otp_witness :
    authVerifyOtp [⟨"9876543210", "123456", 1000, false, 0⟩] 500 (fun _ => none)
        (Except.ok ()) (Except.ok ()) "9876543210" "123456" =
      (Except.error (AuthError.unauthorized "User not found. Please sign up first."),
       [⟨"9876543210", "123456", 1000, true, 0⟩]) ∧
    verifyOTP [⟨"9876543210", "123456", 1000, true, 0⟩] 600
        (formatPhoneNumber "9876543210") "123456" =
      (⟨false, otpAlreadyUsedMsg⟩, [⟨"9876543210", "123456", 1000, true, 0⟩]) ∧
    verifyOTP [⟨"9876543210", "123456", 1000, true, 0⟩] 600
        (formatPhoneNumber "9876543210") "654321" =
      (⟨false, otpIncorrectMsg⟩, [⟨"9876543210", "123456", 1000, true, 0⟩]) :=
  ⟨(login_user_not_found_consumes_otp [] [] ⟨"9876543210", "123456", 1000, false, 0⟩
      "9876543210" "123456" 500 600 (fun _ => none) (Except.ok ()) (Except.ok ())
      (by simp) (by decide) (by decide) rfl rfl rfl (by decide)).1,
   (login_user_not_found_consumes_otp [] [] ⟨"9876543210", "123456", 1000, false, 0⟩
      "9876543210" "123456" 500 600 (fun _ => none) (Except.ok ()) (Except.ok ())
      (by simp) (by decide) (by decide) rfl rfl rfl (by decide)).2.1,
   (login_user_not_found_consumes_otp [] [] ⟨"9876543210", "123456", 1000, false, 0⟩
      "9876543210" "123456" 500 600 (fun _ => none) (Except.ok ()) (Except.ok ())
      (by simp) (by decide) (by decide) rfl rfl rfl (by decide)).2.2 "654321" (by decide)⟩

end Apadbandhan
